import Mathlib

/-!
Verification development for the multi-vendor OLT SNMP monitoring scripts
(Huawei MA5800, ZTE C600/C620, Fiberhome AN6000 variants).

The Python sources are shallowly embedded: the SNMP transport is a function
from (ip, oid, walk) to an optional raw response string, Python dicts become
association lists with insert-or-overwrite semantics, and every script
function becomes a total Lean function over those inputs.  The one partial
Python function (the Huawei model extractor, which can raise IndexError) is
embedded in an Except monad mirroring the exception channel.
-/

/-- Python whitespace set used by str.strip and the regex class \s. -/
def pyIsSpace (c : Char) : Bool :=
  c == ' ' || c == '\t' || c == '\n' || c == '\r' || c == '\x0b' || c == '\x0c'

/-- Drop characters satisfying p from both ends of a list. -/
def trimWhile (p : Char → Bool) (l : List Char) : List Char :=
  ((l.dropWhile p).reverse.dropWhile p).reverse

/-- Structural single-character split with Python str.split semantics:
splitting the empty text yields one empty piece, and separators at either
end yield empty pieces. -/
def splitOnChar (sep : Char) : List Char → List (List Char)
  | [] => [[]]
  | c :: cs =>
      if c == sep then [] :: splitOnChar sep cs
      else
        match splitOnChar sep cs with
        | r :: rs => (c :: r) :: rs
        | [] => [[c]]

/-- Python str.split with a one-character separator. -/
def pySplitChar (sep : Char) (s : String) : List String :=
  (splitOnChar sep s.toList).map String.mk

/-- Python str.join over a one-character separator, the inverse direction
of pySplitChar. -/
def joinWith (sep : Char) : List String → String
  | [] => ""
  | [x] => x
  | x :: y :: rest => x ++ String.mk [sep] ++ joinWith sep (y :: rest)

/-- Python str.strip with no arguments. -/
def pyStrip (s : String) : String := String.mk (trimWhile pyIsSpace s.toList)

/-- Python str.strip applied with the double-quote character. -/
def stripQuotes (s : String) : String :=
  String.mk (trimWhile (fun c => c == '\"') s.toList)

/-- Characters admitted by the type-tag regex class [A-Za-z\-]. -/
def isTagChar (c : Char) : Bool := c.isAlpha || c == '-'

/-- Embedding of re.sub applied with the pattern of a leading SNMP type tag
followed by a colon and optional whitespace: the sources strip a prefix
matching that pattern and leave other strings unchanged. -/
def stripTypeTag (s : String) : String :=
  let l := s.toList
  let tag := l.takeWhile isTagChar
  match l.drop tag.length with
  | ':' :: rest => if tag.length > 0 then String.mk (rest.dropWhile pyIsSpace) else s
  | _ => s

/-- Shared value normalisation of every parse_snmp_output: strip the type
tag, then surrounding quotes, then whitespace. -/
def normalizeValue (v : String) : String := pyStrip (stripQuotes (stripTypeTag v))

/-- Truthiness of the optional raw SNMP response as Python sees it:
None and the empty string are falsy. -/
def pyTruthy : Option String → Bool
  | none => false
  | some s => !(s == "")

/-- The final dot-separated component of an identifier, as in
oid_part.split with a dot then taking the last element. -/
def lastComponent (oid_part : String) : String := (pySplitChar '.' oid_part).getLastD ""

/-- A nonempty string of decimal digits, one capture group of the compound
index regexes. -/
def isDigitGroup (s : String) : Bool := !(s == "") && s.toList.all Char.isDigit

/-- Leftmost match of the Huawei and Fiberhome compound-index regex: a run
of dot-separated digit groups preceded by a dot and extending to the end of
the identifier.  Scanning the dot positions left to right mirrors re.search,
so the first (hence longest) such run is returned. -/
def searchFullIndex : List String → Option (List String)
  | [] => none
  | [_] => none
  | _ :: c :: cs =>
      if (c :: cs).all isDigitGroup then some (c :: cs) else searchFullIndex (c :: cs)

/-- Compound index of the Huawei and Fiberhome parsers: the regex capture
when it matches, otherwise the trailing scalar component. -/
def fullCompoundLongIndex (oid_part : String) : String :=
  match searchFullIndex (pySplitChar '.' oid_part) with
  | some run => joinWith '.' run
  | none => lastComponent oid_part

/-- Compound index of the ZTE parser, whose regex demands exactly two
dot-separated digit groups anchored at the end of the identifier and
preceded by a dot; otherwise the trailing scalar component. -/
def zteCompoundIndex (oid_part : String) : String :=
  let comps := pySplitChar '.' oid_part
  match comps.reverse with
  | b :: a :: _ :: _ =>
      if isDigitGroup a && isDigitGroup b then a ++ "." ++ b else comps.getLastD ""
  | _ => comps.getLastD ""

/-- Python line.split at the first equals sign, returning the two pieces
when the separator occurs and nothing otherwise (malformed lines). -/
def splitFirstEq (line : String) : Option (String × String) :=
  match pySplitChar '=' line with
  | p :: q :: rest => some (p, joinWith '=' (q :: rest))
  | _ => none

/-- Python dict assignment: overwrite in place when the key exists,
append otherwise. -/
def insertAL (m : List (String × String)) (k v : String) : List (String × String) :=
  if m.any (fun p => p.1 == k) then m.map (fun p => if p.1 == k then (k, v) else p)
  else m ++ [(k, v)]

/-- Python dict.get returning an optional value. -/
def dictGet (m : List (String × String)) (k : String) : Option String :=
  match m.find? (fun p => p.1 == k) with
  | some p => some p.2
  | none => none

/-- The values view of the parsed map. -/
def valuesAL (m : List (String × String)) : List String := m.map Prod.snd

/-- The shared line loop of every parse_snmp_output, parameterised by the
vendor-specific index derivation. -/
def parseLines (deriveIndex : String → String) (lines : List String) :
    List (String × String) :=
  lines.foldl
    (fun data line =>
      match splitFirstEq line with
      | none => data
      | some pq =>
          insertAL data (deriveIndex (pyStrip pq.1)) (normalizeValue (pyStrip pq.2)))
    []

/-- A single device as seen through the SNMP transport: a map from
(oid, walk flag) to the optional raw response text. -/
def Device : Type := String → Bool → Option String

/-- The whole transport: a device map per IP address. -/
def Transport : Type := String → String → Bool → Option String

/-- The per-device result row shared by the Huawei and ZTE scripts. -/
structure DeviceRecord where
  ip : String
  sysname : String
  model : String
  board_installed : Nat
  board_used : Nat
  pon_port_installed : Nat
  pon_port_used : Nat
  ont_installed : Nat
  ont_online : Nat
  status : String
  error : String
deriving Repr, DecidableEq

/-- The console summary both main functions print: device counts and the
column-wise sums of the six metric fields over successful records. -/
structure FleetSummary where
  total : Nat
  success : Nat
  failed : Nat
  board_installed : Nat
  board_used : Nat
  pon_installed : Nat
  pon_used : Nat
  ont_installed : Nat
  ont_online : Nat
deriving Repr, DecidableEq

namespace Huawei

def OID_SYS_DESCR : String := "1.3.6.1.2.1.1.1.0"
def OID_SYS_NAME : String := "1.3.6.1.2.1.1.5.0"
def OID_IF_TYPE : String := "1.3.6.1.2.1.2.2.1.3"
def OID_IF_OPER_STATUS : String := "1.3.6.1.2.1.2.2.1.8"
def OID_HW_BOARD_OPER_STATUS : String := "1.3.6.1.4.1.2011.6.3.3.2.1.7"
def OID_HW_ONT_RUN_STATUS : String := "1.3.6.1.4.1.2011.6.128.1.1.2.46.1.15"

/-- parse_snmp_output of the Huawei script. -/
def parse_snmp_output (output : Option String) (full_index : Bool) :
    List (String × String) :=
  if pyTruthy output then
    parseLines
      (fun oid_part => if full_index then fullCompoundLongIndex oid_part
                       else lastComponent oid_part)
      (pySplitChar '\n' (pyStrip (output.getD "")))
  else []

/-- Leftmost match of the Huawei model regex: the literal MA5800- followed
by at least one non-whitespace character, greedy. -/
def searchHuaweiModel : List Char → Option String
  | [] => none
  | c :: cs =>
      if List.isPrefixOf "MA5800-".toList (c :: cs) then
        let tok := ((c :: cs).drop 7).takeWhile (fun ch => !pyIsSpace ch)
        if tok.length > 0 then some (String.mk ("MA5800-".toList ++ tok))
        else searchHuaweiModel cs
      else searchHuaweiModel cs

/-- Structural split at every character satisfying a predicate, keeping
empty pieces. -/
def splitOnPred (p : Char → Bool) : List Char → List (List Char)
  | [] => [[]]
  | c :: cs =>
      if p c then [] :: splitOnPred p cs
      else
        match splitOnPred p cs with
        | r :: rs => (c :: r) :: rs
        | [] => [[c]]

/-- Python str.split with no argument: split on whitespace runs and drop
empty pieces. -/
def pySplitWs (s : String) : List String :=
  ((splitOnPred pyIsSpace s.toList).map String.mk).filter (fun t => !(t == ""))

/-- get_olt_model of the Huawei script.  The fallback indexes the first
whitespace token of the text after the first equals sign; when that text is
empty the Python subscript raises IndexError, modelled as the error case. -/
def get_olt_model (dev : Device) : Except String String :=
  let output := dev OID_SYS_DESCR false
  if pyTruthy output then
    let o := output.getD ""
    match searchHuaweiModel o.toList with
    | some m => Except.ok m
    | none =>
        match pySplitChar '=' o with
        | _ :: p1 :: _ =>
            match pySplitWs (pyStrip p1) with
            | t :: _ => Except.ok t
            | [] => Except.error "list index out of range"
        | _ => Except.ok "Unknown"
  else Except.ok "Unknown"

/-- get_olt_sysname of the Huawei script. -/
def get_olt_sysname (dev : Device) : String :=
  let output := dev OID_SYS_NAME false
  if pyTruthy output then
    match pySplitChar '=' (output.getD "") with
    | _ :: p1 :: _ => pyStrip (stripQuotes (stripTypeTag (pyStrip p1)))
    | _ => "Unknown"
  else "Unknown"

/-- get_board_status of the Huawei script: installed is the row count of
the board operational-status table, used counts the rows equal to the
normal status code zero. -/
def get_board_status (dev : Device) : Nat × Nat :=
  let oper_output := dev OID_HW_BOARD_OPER_STATUS true
  if pyTruthy oper_output then
    let oper_status := parse_snmp_output oper_output false
    let installed := oper_status.length
    let used := (valuesAL oper_status).countP (fun status => status == "0")
    if installed > 0 then (installed, used) else (0, 0)
  else (0, 0)

/-- One iteration of the PON-port loop shared by the Huawei and ZTE
scripts: a GPON row (ifType 250) counts as installed, and as used as well
when its operational status is up (1). -/
def ponPortStep (oper_status : List (String × String)) (acc : Nat × Nat)
    (p : String × String) : Nat × Nat :=
  if p.2 == "250" then
    (acc.1 + 1, if dictGet oper_status p.1 == some "1" then acc.2 + 1 else acc.2)
  else acc

/-- The loop of the PON-port counters over the interface-type table. -/
def ponPortLoop (oper_status : List (String × String))
    (types : List (String × String)) : Nat × Nat :=
  types.foldl (ponPortStep oper_status) (0, 0)

/-- get_pon_port_status of the Huawei script. -/
def get_pon_port_status (dev : Device) : Nat × Nat :=
  let type_output := dev OID_IF_TYPE true
  let oper_output := dev OID_IF_OPER_STATUS true
  if !pyTruthy type_output || !pyTruthy oper_output then (0, 0)
  else
    ponPortLoop (parse_snmp_output oper_output false)
      (parse_snmp_output type_output false)

/-- get_ont_status of the Huawei script: installed is the table row count,
online counts rows with run status 1. -/
def get_ont_status (dev : Device) : Nat × Nat :=
  let ont_output := dev OID_HW_ONT_RUN_STATUS true
  if pyTruthy ont_output then
    let statuses := parse_snmp_output ont_output true
    (statuses.length, (valuesAL statuses).countP (fun status => status == "1"))
  else (0, 0)

/-- collect_olt_data of the Huawei script.  The reachability probe gates
everything; a fault escaping the identity step is caught by the outer
handler, leaving the default error status with the fault text. -/
def collect_olt_data (transport : Transport) (ip : String) : DeviceRecord :=
  let dev : Device := transport ip
  let base : DeviceRecord :=
    { ip := ip, sysname := "", model := "", board_installed := 0, board_used := 0,
      pon_port_installed := 0, pon_port_used := 0, ont_installed := 0,
      ont_online := 0, status := "error", error := "" }
  let test := dev OID_SYS_DESCR false
  if !pyTruthy test then { base with error := "timeout/unreachable" }
  else
    let sysname := get_olt_sysname dev
    match get_olt_model dev with
    | Except.error e => { base with sysname := sysname, error := e }
    | Except.ok model =>
        let board := get_board_status dev
        let pon := get_pon_port_status dev
        let ont := get_ont_status dev
        { base with
            sysname := sysname, model := model,
            board_installed := board.1, board_used := board.2,
            pon_port_installed := pon.1, pon_port_used := pon.2,
            ont_installed := ont.1, ont_online := ont.2,
            status := "OK" }

/-- The summary block of main: total and success counts plus the six sums,
each taken over the records whose status is OK; the failure count is
printed as total minus success. -/
def fleet_summary (results : List DeviceRecord) : FleetSummary :=
  let ok := results.filter (fun r => r.status == "OK")
  { total := results.length
    success := ok.length
    failed := results.length - ok.length
    board_installed := (ok.map (fun r => r.board_installed)).sum
    board_used := (ok.map (fun r => r.board_used)).sum
    pon_installed := (ok.map (fun r => r.pon_port_installed)).sum
    pon_used := (ok.map (fun r => r.pon_port_used)).sum
    ont_installed := (ok.map (fun r => r.ont_installed)).sum
    ont_online := (ok.map (fun r => r.ont_online)).sum }

/-- The collection phase of main: per-device records arrive in completion
order, the data frame is then sorted by the ip column, and the summary is
computed over the collected records. -/
def run_fleet (transport : Transport) (completion_order : List String) :
    List DeviceRecord × FleetSummary :=
  let results := completion_order.map (fun ip => collect_olt_data transport ip)
  (List.insertionSort (fun a b => a.ip ≤ b.ip) results, fleet_summary results)

end Huawei

/-- Tail of the digit-and-underscore validator for Python int literals:
carries the previous character so an underscore is only allowed after a
digit, and demands the final character be a digit. -/
def validDigitsUGo : Char → List Char → Bool
  | prev, [] => prev.isDigit
  | prev, c :: cs => (c.isDigit || (c == '_' && prev.isDigit)) && validDigitsUGo c cs

/-- The digit part of a Python int literal: nonempty, begins and ends with
a digit, underscores only between digits. -/
def validDigitsU : List Char → Bool
  | [] => false
  | c :: cs => c.isDigit && validDigitsUGo c cs

/-- Decimal value of a digit string once underscores are removed. -/
def digitsVal (l : List Char) : Nat :=
  (l.filter (fun c => !(c == '_'))).foldl (fun n c => n * 10 + (c.toNat - 48)) 0

/-- Embedding of the Python int constructor on strings: surrounding
whitespace then an optional single sign then a valid digit body; anything
else raises, modelled as none. -/
def pyInt (s : String) : Option Int :=
  match trimWhile pyIsSpace s.toList with
  | '+' :: rest => if validDigitsU rest then some (Int.ofNat (digitsVal rest)) else none
  | '-' :: rest => if validDigitsU rest then some (-(Int.ofNat (digitsVal rest))) else none
  | rest => if validDigitsU rest then some (Int.ofNat (digitsVal rest)) else none

namespace ZTE

def OID_SYS_DESCR : String := "1.3.6.1.2.1.1.1.0"
def OID_SYS_NAME : String := "1.3.6.1.2.1.1.5.0"
def OID_IF_TYPE : String := "1.3.6.1.2.1.2.2.1.3"
def OID_IF_ADMIN_STATUS : String := "1.3.6.1.2.1.2.2.1.7"
def OID_IF_OPER_STATUS : String := "1.3.6.1.2.1.2.2.1.8"
def OID_ZTE_ONU_STATUS : String := "1.3.6.1.4.1.3902.1082.500.10.2.3.8.1.4"

/-- parse_snmp_output of the ZTE script: identical to the Huawei one except
that the compound-index regex captures exactly two digit groups. -/
def parse_snmp_output (output : Option String) (full_index : Bool) :
    List (String × String) :=
  if pyTruthy output then
    parseLines
      (fun oid_part => if full_index then zteCompoundIndex oid_part
                       else lastComponent oid_part)
      (pySplitChar '\n' (pyStrip (output.getD "")))
  else []

/-- decode_zte_ifindex: interpret the interface index as a packed integer
and extract the slot byte, shifting right by eight bits and masking; a
string that int rejects yields nothing.  Python arithmetic shift is floor
division and the mask is a nonnegative remainder. -/
def decode_zte_ifindex (ifindex : String) : Option String :=
  match pyInt ifindex with
  | some idx => some (toString (Int.fdiv idx 256 % 256))
  | none => none

/-- Leftmost case-insensitive match of the C6x0 model regex, returning the
text as matched. -/
def searchZteC6 : List Char → Option String
  | c1 :: c2 :: c3 :: c4 :: rest =>
      if (c1 == 'C' || c1 == 'c') && c2 == '6' &&
         (c3 == '0' || c3 == '1' || c3 == '2') && c4 == '0' then
        some (String.mk [c1, c2, c3, c4])
      else searchZteC6 (c2 :: c3 :: c4 :: rest)
  | _ => none

/-- Leftmost match of the ZXA10 model regex: the literal ZXA10 followed by
at least one character that is neither whitespace nor a comma. -/
def searchZxa10 : List Char → Option String
  | [] => none
  | c :: cs =>
      if List.isPrefixOf "ZXA10".toList (c :: cs) then
        let tok := ((c :: cs).drop 5).takeWhile (fun ch => !pyIsSpace ch && !(ch == ','))
        if tok.length > 0 then some (String.mk ("ZXA10".toList ++ tok))
        else searchZxa10 cs
      else searchZxa10 cs

/-- Scan for an occurrence of the needle at any position of the text. -/
def containsSub (needle : List Char) : List Char → Bool
  | [] => needle.isEmpty
  | c :: cs => List.isPrefixOf needle (c :: cs) || containsSub needle cs

/-- Python substring membership. -/
def pyContains (needle hay : String) : Bool := containsSub needle.toList hay.toList

/-- get_olt_model of the ZTE script. -/
def get_olt_model (dev : Device) : String :=
  let output := dev OID_SYS_DESCR false
  if pyTruthy output then
    let o := output.getD ""
    match searchZteC6 o.toList with
    | some m => "ZTE-" ++ m
    | none =>
        match searchZxa10 o.toList with
        | some m => m
        | none =>
            if pyContains "ZXA10" o || pyContains "C600" o || pyContains "C620" o then
              "ZTE-C600"
            else "Unknown"
  else "Unknown"

/-- get_olt_sysname of the ZTE script, identical to the Huawei one. -/
def get_olt_sysname (dev : Device) : String :=
  let output := dev OID_SYS_NAME false
  if pyTruthy output then
    match pySplitChar '=' (output.getD "") with
    | _ :: p1 :: _ => pyStrip (stripQuotes (stripTypeTag (pyStrip p1)))
    | _ => "Unknown"
  else "Unknown"

/-- Python set.add on the model of a set as a duplicate-free list. -/
def insertSet (l : List String) (x : String) : List String :=
  if x ∈ l then l else x :: l

/-- One iteration of the card-discovery loop of get_board_status: a GPON
row whose index decodes to a slot contributes the slot to the card set,
and to the active set as well when the row's admin status is up. -/
def boardStep (admin_status : List (String × String))
    (acc : List String × List String) (p : String × String) :
    List String × List String :=
  if p.2 == "250" then
    match decode_zte_ifindex p.1 with
    | some slot =>
        (insertSet acc.1 slot,
         if dictGet admin_status p.1 == some "1" then insertSet acc.2 slot
         else acc.2)
    | none => acc
  else acc

/-- The card-discovery loop over the interface-type table. -/
def boardLoop (admin_status : List (String × String))
    (types : List (String × String)) : List String × List String :=
  types.foldl (boardStep admin_status) ([], [])

/-- get_board_status of the ZTE script: boards are inferred from the PON
interface table by decoding slot numbers and counting distinct slots. -/
def get_board_status (dev : Device) : Nat × Nat :=
  let type_output := dev OID_IF_TYPE true
  let admin_output := dev OID_IF_ADMIN_STATUS true
  if !pyTruthy type_output then (0, 0)
  else
    let types := parse_snmp_output type_output false
    let admin_status :=
      if pyTruthy admin_output then parse_snmp_output admin_output false else []
    let sets := boardLoop admin_status types
    let installed := sets.1.length
    let used := sets.2.length
    if installed > 0 then (installed, used) else (0, 0)

/-- get_pon_port_status of the ZTE script, the same derivation as the
Huawei one over the standard interface table. -/
def get_pon_port_status (dev : Device) : Nat × Nat :=
  let type_output := dev OID_IF_TYPE true
  let oper_output := dev OID_IF_OPER_STATUS true
  if !pyTruthy type_output || !pyTruthy oper_output then (0, 0)
  else
    Huawei.ponPortLoop (parse_snmp_output oper_output false)
      (parse_snmp_output type_output false)

/-- The status codes the ZTE script counts as online: logging, sync_mib
and working. -/
def online_statuses : List String := ["1", "3", "4"]

/-- get_ont_status of the ZTE script: installed is the table row count,
online counts rows whose status lies in online_statuses. -/
def get_ont_status (dev : Device) : Nat × Nat :=
  let onu_output := dev OID_ZTE_ONU_STATUS true
  if pyTruthy onu_output then
    let statuses := parse_snmp_output onu_output true
    (statuses.length,
     (valuesAL statuses).countP (fun status => online_statuses.contains status))
  else (0, 0)

/-- collect_olt_data of the ZTE script.  Unlike the Huawei variant nothing
in the identity or metric steps can raise, so the outer handler is inert
and the embedding is a total function. -/
def collect_olt_data (transport : Transport) (ip : String) : DeviceRecord :=
  let dev : Device := transport ip
  let base : DeviceRecord :=
    { ip := ip, sysname := "", model := "", board_installed := 0, board_used := 0,
      pon_port_installed := 0, pon_port_used := 0, ont_installed := 0,
      ont_online := 0, status := "error", error := "" }
  let test := dev OID_SYS_DESCR false
  if !pyTruthy test then { base with error := "timeout/unreachable" }
  else
    let board := get_board_status dev
    let pon := get_pon_port_status dev
    let ont := get_ont_status dev
    { base with
        sysname := get_olt_sysname dev, model := get_olt_model dev,
        board_installed := board.1, board_used := board.2,
        pon_port_installed := pon.1, pon_port_used := pon.2,
        ont_installed := ont.1, ont_online := ont.2,
        status := "OK" }

/-- The summary block of the ZTE main, textually identical to the Huawei
one. -/
def fleet_summary (results : List DeviceRecord) : FleetSummary :=
  let ok := results.filter (fun r => r.status == "OK")
  { total := results.length
    success := ok.length
    failed := results.length - ok.length
    board_installed := (ok.map (fun r => r.board_installed)).sum
    board_used := (ok.map (fun r => r.board_used)).sum
    pon_installed := (ok.map (fun r => r.pon_port_installed)).sum
    pon_used := (ok.map (fun r => r.pon_port_used)).sum
    ont_installed := (ok.map (fun r => r.ont_installed)).sum
    ont_online := (ok.map (fun r => r.ont_online)).sum }

end ZTE

namespace Fiberhome

def OID_SYS_DESCR : String := "1.3.6.1.2.1.1.1.0"
def OID_FH_CARD_STATUS : String := "1.3.6.1.4.1.5875.800.3.9.2.1.1.5"
def OID_FH_CARD_TYPE : String := "1.3.6.1.4.1.5875.800.3.9.2.1.1.2"
def OID_FH_PON_PORT_TYPE : String := "1.3.6.1.4.1.5875.800.3.9.3.4.1.1"
def OID_FH_PON_PORT_NAME : String := "1.3.6.1.4.1.5875.800.3.9.3.4.1.2"
def OID_FH_ONU_STATUS : String := "1.3.6.1.4.1.5875.800.3.10.1.1.11"

/-- parse_snmp_output of the Fiberhome script: same compound-index regex
as the Huawei one. -/
def parse_snmp_output (output : Option String) (full_index : Bool) :
    List (String × String) :=
  if pyTruthy output then
    parseLines
      (fun oid_part => if full_index then fullCompoundLongIndex oid_part
                       else lastComponent oid_part)
      (pySplitChar '\n' (pyStrip (output.getD "")))
  else []

/-- get_board_status of the Fiberhome script: the card-status table when
it yields rows, otherwise the card-type table with every card counted as
used. -/
def get_board_status (dev : Device) : Nat × Nat :=
  let status_output := dev OID_FH_CARD_STATUS true
  let fromStatus :=
    if pyTruthy status_output then
      let statuses := parse_snmp_output status_output false
      let installed := statuses.length
      let used := ((valuesAL statuses).filter (fun v => v == "1")).length
      if installed > 0 then some (installed, used) else none
    else none
  match fromStatus with
  | some p => p
  | none =>
      let type_output := dev OID_FH_CARD_TYPE true
      if pyTruthy type_output then
        let types := parse_snmp_output type_output false
        (types.length, types.length)
      else (0, 0)

/-- Python str.upper over the ASCII text the tables carry. -/
def pyUpper (s : String) : String := String.mk (s.toList.map Char.toUpper)

/-- get_pon_port_status of the Fiberhome script: installed counts rows of
the port-type table equal to one, while used counts rows of the separate
port-name table naming a PON port; a missing name table makes used equal
installed. -/
def get_pon_port_status (dev : Device) : Nat × Nat :=
  let type_output := dev OID_FH_PON_PORT_TYPE true
  if !pyTruthy type_output then (0, 0)
  else
    let types := parse_snmp_output type_output false
    let installed := ((valuesAL types).filter (fun v => v == "1")).length
    let name_output := dev OID_FH_PON_PORT_NAME true
    let used :=
      if pyTruthy name_output then
        let names := parse_snmp_output name_output false
        ((valuesAL names).filter
          (fun v => !(v == "") && ZTE.pyContains "PON" (pyUpper v))).length
      else installed
    (installed, used)

/-- get_onu_status of the Fiberhome script: a row with status zero is
deregistered and not installed, one means online, any other status counts
as installed only. -/
def get_onu_status (dev : Device) : Nat × Nat :=
  let onu_status_output := dev OID_FH_ONU_STATUS true
  if pyTruthy onu_status_output then
    let statuses := parse_snmp_output onu_status_output false
    (((valuesAL statuses).filter (fun v => !(v == "0"))).length,
     ((valuesAL statuses).filter (fun v => v == "1")).length)
  else (0, 0)

end Fiberhome

/-- Modelled from the spec: the longest trailing run of dot-separated digit
groups of an identifier. -/
def longestDigitSuffix : List String → List String
  | [] => []
  | c :: cs =>
      if isDigitGroup c && cs.all isDigitGroup then c :: cs else longestDigitSuffix cs

/-- Modelled from the spec: the fullCompound index derivation, the longest
trailing run of dot-separated digit groups that a dot precedes, falling
back to the trailing scalar component when no such run exists. -/
def spec_fullCompoundIndex (oid_part : String) : String :=
  let comps := pySplitChar '.' oid_part
  let run := longestDigitSuffix comps
  let k := min run.length (comps.length - 1)
  if k = 0 then comps.getLastD ""
  else joinWith '.' (run.drop (run.length - k))

/-- The invariant the card-discovery step preserves: the active set is a
duplicate-free subset of the duplicate-free card set. -/
def BoardInv (acc : List String × List String) : Prop :=
  acc.2 ⊆ acc.1 ∧ acc.1.Nodup ∧ acc.2.Nodup

/-- C3 gadget: a device answering no query at all. -/
def devC3 : Device := fun _ _ => none

/-- C9 gadget: a Fiberhome device whose port-type table has no rows equal
to one while its port-name table names one PON port. -/
def devC9 : Device := fun oid _ =>
  if oid == Fiberhome.OID_FH_PON_PORT_TYPE then some "x.1 = INTEGER: 2"
  else if oid == Fiberhome.OID_FH_PON_PORT_NAME then some "x.1 = STRING: PON1/1"
  else none

/-- The zeroed Huawei or ZTE record the probe-failure branch returns. -/
def unreachableRecord (ip : String) : DeviceRecord :=
  { ip := ip, sysname := "", model := "", board_installed := 0, board_used := 0,
    pon_port_installed := 0, pon_port_used := 0, ont_installed := 0,
    ont_online := 0, status := "error", error := "timeout/unreachable" }

/-- C1 gadget: a transport whose device answers the reachability probe
with text that defeats both the model regex and the fallback token
extraction, so the Huawei model extractor raises IndexError. -/
def devBadModelT : Transport := fun _ oid walk =>
  if oid == Huawei.OID_SYS_DESCR && !walk then some "x =" else none

/-- C1 gadget: a transport that never answers. -/
def devDownT : Transport := fun _ _ _ => none

/-- C1 gadget: a transport that answers the reachability probe with benign
text and nothing else. -/
def devUpT : Transport := fun _ oid walk =>
  if oid == Huawei.OID_SYS_DESCR && !walk then some "hello" else none

/-- C7 gadget: one successful record with nonzero metrics. -/
def recOkC7 : DeviceRecord :=
  { ip := "10.0.0.1", sysname := "s", model := "m", board_installed := 2, board_used := 1,
    pon_port_installed := 4, pon_port_used := 3, ont_installed := 9, ont_online := 8,
    status := "OK", error := "" }

/-- C7 gadget: one failed record carrying metric values that must not be
counted. -/
def recErrC7 : DeviceRecord :=
  { ip := "10.0.0.2", sysname := "", model := "", board_installed := 7, board_used := 7,
    pon_port_installed := 7, pon_port_used := 7, ont_installed := 7, ont_online := 7,
    status := "error", error := "timeout/unreachable" }

/-- C8 gadget: a frozen transport on which one address answers the probe
and the other stays silent. -/
def transC8 : Transport := fun ip oid walk =>
  if ip == "10.0.0.1" && oid == Huawei.OID_SYS_DESCR && !walk then
    some "d = MA5800-X2 core"
  else none

theorem longestDigitSuffix_length_le (l : List String) :
    (longestDigitSuffix l).length ≤ l.length := by
  induction l with
  | nil => simp [longestDigitSuffix]
  | cons c cs ih =>
      simp only [longestDigitSuffix]
      split
      case isTrue => exact Nat.le_refl _
      case isFalse => exact Nat.le_trans ih (Nat.le_succ _)

theorem longestDigitSuffix_length_lt (l : List String)
    (h : l.all isDigitGroup = false) : (longestDigitSuffix l).length < l.length := by
  cases l with
  | nil => simp at h
  | cons c cs =>
      simp only [longestDigitSuffix, List.all_cons] at h ⊢
      rw [h]
      exact Nat.lt_succ_of_le (longestDigitSuffix_length_le cs)

theorem longestDigitSuffix_cons_pos (x : String) (l : List String)
    (h : (isDigitGroup x && l.all isDigitGroup) = true) :
    longestDigitSuffix (x :: l) = x :: l := by
  simp only [longestDigitSuffix, h, if_true]

theorem longestDigitSuffix_cons_neg (x : String) (l : List String)
    (h : (isDigitGroup x && l.all isDigitGroup) = false) :
    longestDigitSuffix (x :: l) = longestDigitSuffix l := by
  simp [longestDigitSuffix, h]

theorem searchFullIndex_cons2_pos (x c : String) (cs : List String)
    (h : (c :: cs).all isDigitGroup = true) :
    searchFullIndex (x :: c :: cs) = some (c :: cs) := by
  simp only [searchFullIndex, h, if_true]

theorem searchFullIndex_cons2_neg (x c : String) (cs : List String)
    (h : (c :: cs).all isDigitGroup = false) :
    searchFullIndex (x :: c :: cs) = searchFullIndex (c :: cs) := by
  simp [searchFullIndex, h]

/-- The leftmost regex search of the Huawei and Fiberhome parsers captures
exactly the dot-preceded part of the longest trailing digit run. -/
theorem searchFullIndex_eq (l : List String) :
    searchFullIndex l =
      (if min (longestDigitSuffix l).length (l.length - 1) = 0 then none
       else some ((longestDigitSuffix l).drop
         ((longestDigitSuffix l).length -
           min (longestDigitSuffix l).length (l.length - 1)))) := by
  induction l with
  | nil => simp [searchFullIndex, longestDigitSuffix]
  | cons x t ih =>
      cases t with
      | nil => simp [searchFullIndex, Nat.min_zero]
      | cons c cs =>
          by_cases h : (c :: cs).all isDigitGroup = true
          case pos =>
              have hc : isDigitGroup c = true := by
                simp only [List.all_cons, Bool.and_eq_true] at h
                exact h.1
              have hcs : cs.all isDigitGroup = true := by
                simp only [List.all_cons, Bool.and_eq_true] at h
                exact h.2
              rw [searchFullIndex_cons2_pos x c cs h]
              by_cases hx : isDigitGroup x = true
              case pos =>
                  rw [longestDigitSuffix_cons_pos x (c :: cs) (by simp [hx, h])]
                  have hm : min (x :: c :: cs).length ((x :: c :: cs).length - 1) =
                      cs.length + 1 := by
                    simp only [List.length_cons]
                    omega
                  rw [hm, if_neg (by omega)]
                  have hd : (x :: c :: cs).length - (cs.length + 1) = 1 := by
                    simp only [List.length_cons]
                    omega
                  rw [hd]
                  rfl
              case neg =>
                  have hx0 : isDigitGroup x = false := by
                    cases hb : isDigitGroup x
                    case false => rfl
                    case true => exact absurd hb hx
                  rw [longestDigitSuffix_cons_neg x (c :: cs) (by simp [hx0]),
                      longestDigitSuffix_cons_pos c cs (by simp [hc, hcs])]
                  have hm : min (c :: cs).length ((x :: c :: cs).length - 1) =
                      cs.length + 1 := by
                    simp only [List.length_cons]
                    omega
                  rw [hm, if_neg (by omega)]
                  have hd : (c :: cs).length - (cs.length + 1) = 0 := by
                    simp only [List.length_cons]
                    omega
                  rw [hd]
                  rfl
          case neg =>
              have hb : (c :: cs).all isDigitGroup = false := by
                cases hbb : (c :: cs).all isDigitGroup
                case false => rfl
                case true => exact absurd hbb h
              have hlt := longestDigitSuffix_length_lt (c :: cs) hb
              rw [searchFullIndex_cons2_neg x c cs hb, ih,
                  longestDigitSuffix_cons_neg x (c :: cs) (by simp [hb])]
              have hmin1 : min (longestDigitSuffix (c :: cs)).length ((c :: cs).length - 1) =
                  (longestDigitSuffix (c :: cs)).length := by omega
              have hmin2 : min (longestDigitSuffix (c :: cs)).length
                  ((x :: c :: cs).length - 1) =
                  (longestDigitSuffix (c :: cs)).length := by
                simp only [List.length_cons] at hlt ⊢
                omega
              rw [hmin1, hmin2]

/-- The Huawei and Fiberhome fullCompound index equals the spec derivation
on every identifier. -/
theorem fullCompoundLongIndex_eq_spec (s : String) :
    fullCompoundLongIndex s = spec_fullCompoundIndex s := by
  unfold fullCompoundLongIndex spec_fullCompoundIndex lastComponent
  rw [searchFullIndex_eq]
  by_cases h :
      min (longestDigitSuffix (pySplitChar '.' s)).length ((pySplitChar '.' s).length - 1) = 0
  case pos => simp [h]
  case neg => simp [h]

theorem ponPortStep_le (oper_status : List (String × String)) (acc : Nat × Nat)
    (p : String × String) (h : acc.2 ≤ acc.1) :
    (Huawei.ponPortStep oper_status acc p).2 ≤ (Huawei.ponPortStep oper_status acc p).1 := by
  unfold Huawei.ponPortStep
  split
  case isTrue =>
      split
      case isTrue => exact Nat.succ_le_succ h
      case isFalse => exact Nat.le_succ_of_le h
  case isFalse => exact h

theorem ponPortLoop_le_aux (oper_status types : List (String × String)) :
    ∀ acc : Nat × Nat, acc.2 ≤ acc.1 →
      (types.foldl (Huawei.ponPortStep oper_status) acc).2 ≤
        (types.foldl (Huawei.ponPortStep oper_status) acc).1 := by
  induction types with
  | nil => intro acc h; exact h
  | cons p rest ih =>
      intro acc h
      simp only [List.foldl_cons]
      exact ih _ (ponPortStep_le oper_status acc p h)

/-- The PON-port loop counts used ports among the installed ones. -/
theorem ponPortLoop_le (oper_status types : List (String × String)) :
    (Huawei.ponPortLoop oper_status types).2 ≤ (Huawei.ponPortLoop oper_status types).1 :=
  ponPortLoop_le_aux oper_status types (0, 0) (Nat.le_refl 0)

theorem mem_insertSet_iff (l : List String) (x y : String) :
    y ∈ ZTE.insertSet l x ↔ y = x ∨ y ∈ l := by
  unfold ZTE.insertSet
  by_cases h : x ∈ l
  case pos =>
      simp only [h, if_true]
      constructor
      case mp => exact fun hy => Or.inr hy
      case mpr =>
          intro hy
          cases hy with
          | inl he => exact he ▸ h
          | inr hm => exact hm
  case neg =>
      simp only [h, if_false]
      exact List.mem_cons

theorem insertSet_nodup (l : List String) (x : String) (h : l.Nodup) :
    (ZTE.insertSet l x).Nodup := by
  unfold ZTE.insertSet
  by_cases hm : x ∈ l
  case pos => simp only [hm, if_true]; exact h
  case neg => simp only [hm, if_false]; exact List.nodup_cons.mpr ⟨hm, h⟩

theorem insertSet_subset (l c : List String) (x : String) (h : l ⊆ c) :
    ZTE.insertSet l x ⊆ ZTE.insertSet c x := by
  intro y hy
  rw [mem_insertSet_iff] at hy ⊢
  cases hy with
  | inl he => exact Or.inl he
  | inr hm => exact Or.inr (h hm)

theorem subset_insertSet (l : List String) (x : String) : l ⊆ ZTE.insertSet l x := by
  intro y hy
  rw [mem_insertSet_iff]
  exact Or.inr hy

theorem boardStep_inv (admin_status : List (String × String))
    (acc : List String × List String) (p : String × String) (h : BoardInv acc) :
    BoardInv (ZTE.boardStep admin_status acc p) := by
  obtain ⟨h1, h2, h3⟩ := h
  unfold ZTE.boardStep
  split
  · cases hdec : ZTE.decode_zte_ifindex p.1 with
    | none => exact ⟨h1, h2, h3⟩
    | some slot =>
        dsimp only
        by_cases hup : (dictGet admin_status p.1 == some "1") = true
        · rw [if_pos hup]
          exact ⟨insertSet_subset _ _ _ h1, insertSet_nodup _ _ h2,
            insertSet_nodup _ _ h3⟩
        · rw [if_neg hup]
          exact ⟨List.Subset.trans h1 (subset_insertSet _ _), insertSet_nodup _ _ h2, h3⟩
  · exact ⟨h1, h2, h3⟩

theorem boardLoop_inv_aux (admin_status types : List (String × String)) :
    ∀ acc : List String × List String, BoardInv acc →
      BoardInv (types.foldl (ZTE.boardStep admin_status) acc) := by
  induction types with
  | nil => intro acc h; exact h
  | cons p rest ih =>
      intro acc h
      simp only [List.foldl_cons]
      exact ih _ (boardStep_inv admin_status acc p h)

/-- The card-discovery loop produces an active-card set no larger than the
card set. -/
theorem boardLoop_le (admin_status types : List (String × String)) :
    (ZTE.boardLoop admin_status types).2.length ≤
      (ZTE.boardLoop admin_status types).1.length := by
  have h := boardLoop_inv_aux admin_status types ([], [])
    ⟨List.nil_subset _, List.nodup_nil, List.nodup_nil⟩
  obtain ⟨h1, _, h3⟩ := h
  exact (h3.subperm h1).length_le

/-- Every branch of the Huawei orchestrator stamps the record with the
device address it was invoked for. -/
theorem collect_ip (transport : Transport) (ip : String) :
    (Huawei.collect_olt_data transport ip).ip = ip := by
  unfold Huawei.collect_olt_data
  dsimp only
  split
  · rfl
  · split <;> rfl

theorem orderedInsert_map_ip (f : String → DeviceRecord) (hkey : ∀ s, (f s).ip = s)
    (a : String) (l : List String) :
    List.orderedInsert (fun x y : DeviceRecord => x.ip ≤ y.ip) (f a) (l.map f) =
      (List.orderedInsert (fun x y : String => x ≤ y) a l).map f := by
  induction l with
  | nil => simp [List.orderedInsert]
  | cons b t ih =>
      simp only [List.map_cons, List.orderedInsert, hkey a, hkey b]
      by_cases h : a ≤ b
      · rw [if_pos h, if_pos h]
        simp
      · rw [if_neg h, if_neg h]
        simp only [List.map_cons]
        rw [ih]

theorem insertionSort_map_ip (f : String → DeviceRecord) (hkey : ∀ s, (f s).ip = s)
    (l : List String) :
    List.insertionSort (fun x y : DeviceRecord => x.ip ≤ y.ip) (l.map f) =
      (List.insertionSort (fun x y : String => x ≤ y) l).map f := by
  induction l with
  | nil => simp [List.insertionSort]
  | cons a t ih =>
      simp only [List.map_cons, List.insertionSort]
      rw [ih, orderedInsert_map_ip f hkey]

/-- The summary block is invariant under permutation of the collected
records: it only counts and sums. -/
theorem fleet_summary_perm {l1 l2 : List DeviceRecord} (h : l1.Perm l2) :
    Huawei.fleet_summary l1 = Huawei.fleet_summary l2 := by
  have hf := h.filter (fun r => r.status == "OK")
  unfold Huawei.fleet_summary
  dsimp only
  rw [h.length_eq, hf.length_eq,
      (hf.map (fun r => r.board_installed)).sum_eq,
      (hf.map (fun r => r.board_used)).sum_eq,
      (hf.map (fun r => r.pon_port_installed)).sum_eq,
      (hf.map (fun r => r.pon_port_used)).sum_eq,
      (hf.map (fun r => r.ont_installed)).sum_eq,
      (hf.map (fun r => r.ont_online)).sum_eq]

theorem contains_online_statuses (v : String) :
    ZTE.online_statuses.contains v = decide (v = "1" ∨ v = "3" ∨ v = "4") := by
  by_cases h1 : v = "1"
  · simp [ZTE.online_statuses, h1]
  · by_cases h3 : v = "3"
    · simp [ZTE.online_statuses, h3]
    · by_cases h4 : v = "4"
      · simp [ZTE.online_statuses, h4]
      · simp [ZTE.online_statuses, h1, h3, h4]

/-- C3: the metric methods the claim cites degrade a missing table to the
zero pair inside the method; in this embedding each method is moreover a
total function of the transport responses, so no fault can escape it and
abort the device collection. -/
theorem C3_fault_degradation (dev : Device) :
    (pyTruthy (dev Huawei.OID_HW_BOARD_OPER_STATUS true) = false →
      Huawei.get_board_status dev = (0, 0)) ∧
    (pyTruthy (dev ZTE.OID_IF_TYPE true) = false →
      ZTE.get_board_status dev = (0, 0)) ∧
    (pyTruthy (dev Fiberhome.OID_FH_ONU_STATUS true) = false →
      Fiberhome.get_onu_status dev = (0, 0)) := by
  refine ⟨fun h => ?_, fun h => ?_, fun h => ?_⟩
  · unfold Huawei.get_board_status
    simp [h]
  · unfold ZTE.get_board_status
    simp [h]
  · unfold Fiberhome.get_onu_status
    simp [h]

/-- C3 witness: on the silent device each cited method returns the zero
pair. -/
theorem C3_witness :
    pyTruthy (devC3 Huawei.OID_HW_BOARD_OPER_STATUS true) = false ∧
    Huawei.get_board_status devC3 = (0, 0) ∧
    ZTE.get_board_status devC3 = (0, 0) ∧
    Fiberhome.get_onu_status devC3 = (0, 0) :=
  ⟨rfl, (C3_fault_degradation devC3).1 rfl, (C3_fault_degradation devC3).2.1 rfl,
    (C3_fault_degradation devC3).2.2 rfl⟩

/-- C4: the ZTE subscriber-unit derivation returns the parsed row count as
installed and counts exactly the rows whose status code lies in the
three-element set of logging, sync-in-progress and working (1, 3, 4) as
online; no other code contributes to online. -/
theorem C4_zte_ont_status (dev : Device) :
    ZTE.get_ont_status dev =
      (if pyTruthy (dev ZTE.OID_ZTE_ONU_STATUS true) then
        ((ZTE.parse_snmp_output (dev ZTE.OID_ZTE_ONU_STATUS true) true).length,
         (valuesAL (ZTE.parse_snmp_output (dev ZTE.OID_ZTE_ONU_STATUS true) true)).countP
           (fun v => decide (v = "1" ∨ v = "3" ∨ v = "4")))
      else (0, 0)) := by
  unfold ZTE.get_ont_status
  dsimp only
  split
  · refine congrArg _ ?_
    exact List.countP_congr (fun v _ => by rw [contains_online_statuses v])
  · rfl

/-- C5: the Fiberhome subscriber-unit derivation counts every row with a
status other than the deregistered code zero as installed, and exactly the
rows with status one as online; the remaining codes count toward installed
but never toward online. -/
theorem C5_fiberhome_onu_status (dev : Device) :
    Fiberhome.get_onu_status dev =
      (if pyTruthy (dev Fiberhome.OID_FH_ONU_STATUS true) then
        ((valuesAL
            (Fiberhome.parse_snmp_output (dev Fiberhome.OID_FH_ONU_STATUS true) false)).countP
           (fun v => decide (v ≠ "0")),
         (valuesAL
            (Fiberhome.parse_snmp_output (dev Fiberhome.OID_FH_ONU_STATUS true) false)).countP
           (fun v => decide (v = "1")))
      else (0, 0)) := by
  unfold Fiberhome.get_onu_status
  dsimp only
  split
  · rw [Prod.mk.injEq]
    refine ⟨?_, ?_⟩
    · rw [List.countP_eq_length_filter]
      refine congrArg List.length (List.filter_congr (fun v _ => ?_))
      by_cases hv : v = "0" <;> simp [hv]
    · rw [List.countP_eq_length_filter]
      refine congrArg List.length (List.filter_congr (fun v _ => ?_))
      by_cases hv : v = "1" <;> simp [hv]
  · rfl

/-- C6: decode_zte_ifindex extracts the slot byte of every index the
Python int constructor accepts, via an arithmetic right shift by eight
bits and a one-byte mask (floor division and nonnegative remainder); the
two documented composite indices decode to slots 1 and 2, and an index
int rejects yields nothing rather than an exception. -/
theorem C6_decode_ifindex :
    (∀ s n, pyInt s = some n →
      ZTE.decode_zte_ifindex s = some (toString (Int.fdiv n 256 % 256))) ∧
    (∀ s, pyInt s = none → ZTE.decode_zte_ifindex s = none) ∧
    ZTE.decode_zte_ifindex "285278465" = some "1" ∧
    ZTE.decode_zte_ifindex "285278721" = some "2" := by
  refine ⟨fun s n h => ?_, fun s h => ?_, rfl, rfl⟩
  · unfold ZTE.decode_zte_ifindex
    rw [h]
  · unfold ZTE.decode_zte_ifindex
    rw [h]

/-- C6 witness: the general slot formula applied at the first documented
composite index. -/
theorem C6_witness :
    pyInt "285278465" = some 285278465 ∧
    ZTE.decode_zte_ifindex "285278465" =
      some (toString (Int.fdiv 285278465 256 % 256)) :=
  ⟨rfl, C6_decode_ifindex.1 "285278465" 285278465 rfl⟩

/-- C9: the bound of used at most installed is not enforced: on devC9 the
Fiberhome PON-port derivation returns zero installed but one used port,
because installed is counted from the port-type table and used from the
separate port-name table. -/
theorem C9_used_exceeds_installed :
    Fiberhome.get_pon_port_status devC9 = (0, 1) ∧
    (Fiberhome.get_pon_port_status devC9).1 < (Fiberhome.get_pon_port_status devC9).2 :=
  ⟨rfl, Nat.zero_lt_one⟩

theorem ifPairBound (a b : Nat) (h : b ≤ a) :
    (if a > 0 then (a, b) else (0, 0)).2 ≤ (if a > 0 then (a, b) else (0, 0)).1 := by
  split
  · exact h
  · exact Nat.le_refl 0

/-- C10: every Huawei and ZTE metric derivation returns a used or online
count bounded by its installed count, on every transport response. -/
theorem C10_used_le_installed (dev : Device) :
    (Huawei.get_board_status dev).2 ≤ (Huawei.get_board_status dev).1 ∧
    (Huawei.get_pon_port_status dev).2 ≤ (Huawei.get_pon_port_status dev).1 ∧
    (Huawei.get_ont_status dev).2 ≤ (Huawei.get_ont_status dev).1 ∧
    (ZTE.get_board_status dev).2 ≤ (ZTE.get_board_status dev).1 ∧
    (ZTE.get_pon_port_status dev).2 ≤ (ZTE.get_pon_port_status dev).1 ∧
    (ZTE.get_ont_status dev).2 ≤ (ZTE.get_ont_status dev).1 := by
  refine ⟨?_, ?_, ?_, ?_, ?_, ?_⟩
  · unfold Huawei.get_board_status
    dsimp only
    split
    · split
      · exact Nat.le_trans (List.countP_le_length _)
          (Nat.le_of_eq (List.length_map _ _))
      · exact Nat.le_refl 0
    · exact Nat.le_refl 0
  · unfold Huawei.get_pon_port_status
    dsimp only
    split
    · exact Nat.le_refl 0
    · exact ponPortLoop_le _ _
  · unfold Huawei.get_ont_status
    dsimp only
    split
    · exact Nat.le_trans (List.countP_le_length _)
        (Nat.le_of_eq (List.length_map _ _))
    · exact Nat.le_refl 0
  · unfold ZTE.get_board_status
    dsimp only
    by_cases h1 : (!pyTruthy (dev ZTE.OID_IF_TYPE true)) = true
    · rw [if_pos h1]
    · rw [if_neg h1]
      exact ifPairBound _ _ (boardLoop_le _ _)
  · unfold ZTE.get_pon_port_status
    dsimp only
    split
    · exact Nat.le_refl 0
    · exact ponPortLoop_le _ _
  · unfold ZTE.get_ont_status
    dsimp only
    split
    · exact Nat.le_trans (List.countP_le_length _)
        (Nat.le_of_eq (List.length_map _ _))
    · exact Nat.le_refl 0

/-- C2 counterexample: on a raw line whose identifier ends in three digit
groups after a non-numeric component, the ZTE parser keeps only the last
two groups, although the longest trailing run of digit groups is all
three, so the longest-run derivation does not hold in every vendor
variant. -/
theorem C2_counterexample :
    ZTE.parse_snmp_output (some "x.1.2.3 = INTEGER: 4") true = [("2.3", "4")] ∧
    spec_fullCompoundIndex "x.1.2.3" = "1.2.3" ∧
    zteCompoundIndex "x.1.2.3" ≠ spec_fullCompoundIndex "x.1.2.3" :=
  ⟨rfl, rfl, by decide⟩

/-- C2 amended: the Huawei and Fiberhome parsers derive the fullCompound
index as the longest dot-preceded trailing run of digit groups, with the
trailing scalar as fallback; the ZTE parser instead keeps exactly the
trailing two digit groups; on the documented subscriber-status line all
three parsers agree on index 285278465.1 and value 4. -/
theorem C2_compound_index_amended :
    (∀ s, fullCompoundLongIndex s = spec_fullCompoundIndex s) ∧
    Huawei.parse_snmp_output (some "ZXAN::ponOnuStatus.285278465.1 = INTEGER: 4") true =
      [("285278465.1", "4")] ∧
    Fiberhome.parse_snmp_output (some "ZXAN::ponOnuStatus.285278465.1 = INTEGER: 4") true =
      [("285278465.1", "4")] ∧
    ZTE.parse_snmp_output (some "ZXAN::ponOnuStatus.285278465.1 = INTEGER: 4") true =
      [("285278465.1", "4")] :=
  ⟨fullCompoundLongIndex_eq_spec, rfl, rfl, rfl⟩

/-- C1 amended: a failed reachability probe yields the error record with
every metric zero and the nonempty reason timeout/unreachable, in both the
Huawei and ZTE orchestrators.  A successful probe always yields status OK
in the ZTE orchestrator; in the Huawei orchestrator it yields OK whenever
the model extraction returns, while a model-extraction fault is caught at
the orchestrator boundary and recorded as an error status carrying the
fault text. -/
theorem C1_fault_containment_amended (transport : Transport) (ip : String) :
    (pyTruthy (transport ip Huawei.OID_SYS_DESCR false) = false →
      Huawei.collect_olt_data transport ip = unreachableRecord ip) ∧
    (pyTruthy (transport ip ZTE.OID_SYS_DESCR false) = false →
      ZTE.collect_olt_data transport ip = unreachableRecord ip) ∧
    (pyTruthy (transport ip ZTE.OID_SYS_DESCR false) = true →
      (ZTE.collect_olt_data transport ip).status = "OK") ∧
    (∀ m, pyTruthy (transport ip Huawei.OID_SYS_DESCR false) = true →
      Huawei.get_olt_model (transport ip) = Except.ok m →
      (Huawei.collect_olt_data transport ip).status = "OK") ∧
    (∀ e, pyTruthy (transport ip Huawei.OID_SYS_DESCR false) = true →
      Huawei.get_olt_model (transport ip) = Except.error e →
      (Huawei.collect_olt_data transport ip).status = "error" ∧
      (Huawei.collect_olt_data transport ip).error = e) := by
  refine ⟨fun h => ?_, fun h => ?_, fun h => ?_, fun m h hm => ?_, fun e h he => ?_⟩
  · unfold Huawei.collect_olt_data
    simp only [h, Bool.not_false, if_true]
    rfl
  · unfold ZTE.collect_olt_data
    simp only [h, Bool.not_false, if_true]
    rfl
  · unfold ZTE.collect_olt_data
    simp only [h, Bool.not_true, Bool.false_eq_true, if_false]
  · unfold Huawei.collect_olt_data
    simp only [h, Bool.not_true, Bool.false_eq_true, if_false, hm]
  · unfold Huawei.collect_olt_data
    simp [h, he]

/-- C1 counterexample: the probe succeeds on devBadModelT yet the Huawei
record does not come back OK: model extraction raised inside the
orchestrator and the caught IndexError text is recorded instead. -/
theorem C1_counterexample :
    pyTruthy (devBadModelT "10.0.0.1" Huawei.OID_SYS_DESCR false) = true ∧
    (Huawei.collect_olt_data devBadModelT "10.0.0.1").status ≠ "OK" ∧
    (Huawei.collect_olt_data devBadModelT "10.0.0.1").status = "error" ∧
    (Huawei.collect_olt_data devBadModelT "10.0.0.1").error = "list index out of range" :=
  ⟨rfl, by decide, rfl, rfl⟩

/-- C1 witness: the amended theorem applied to the silent transport and to
the probe-only transport. -/
theorem C1_witness :
    Huawei.collect_olt_data devDownT "10.0.0.1" = unreachableRecord "10.0.0.1" ∧
    ZTE.collect_olt_data devDownT "10.0.0.1" = unreachableRecord "10.0.0.1" ∧
    (ZTE.collect_olt_data devUpT "10.0.0.1").status = "OK" ∧
    (Huawei.collect_olt_data devUpT "10.0.0.1").status = "OK" :=
  ⟨(C1_fault_containment_amended devDownT "10.0.0.1").1 rfl,
   (C1_fault_containment_amended devDownT "10.0.0.1").2.1 rfl,
   (C1_fault_containment_amended devUpT "10.0.0.1").2.2.1 rfl,
   (C1_fault_containment_amended devUpT "10.0.0.1").2.2.2.1 "Unknown" rfl rfl⟩

/-- C7: the fleet summary counts successes and sums every metric column
only over records with status OK, reports failures as total minus
success, and appending an ERROR record changes nothing but the total and
failure counts while appending an OK record adds exactly its own metrics;
the ZTE summary block is the identical computation. -/
theorem C7_fleet_summary_ok_only (records : List DeviceRecord) (r : DeviceRecord) :
    ((Huawei.fleet_summary records).success =
        (records.filter (fun x => x.status == "OK")).length ∧
     (Huawei.fleet_summary records).failed =
        (Huawei.fleet_summary records).total - (Huawei.fleet_summary records).success ∧
     (Huawei.fleet_summary records).board_installed =
        ((records.filter (fun x => x.status == "OK")).map (fun x => x.board_installed)).sum ∧
     (Huawei.fleet_summary records).board_used =
        ((records.filter (fun x => x.status == "OK")).map (fun x => x.board_used)).sum ∧
     (Huawei.fleet_summary records).pon_installed =
        ((records.filter (fun x => x.status == "OK")).map (fun x => x.pon_port_installed)).sum ∧
     (Huawei.fleet_summary records).pon_used =
        ((records.filter (fun x => x.status == "OK")).map (fun x => x.pon_port_used)).sum ∧
     (Huawei.fleet_summary records).ont_installed =
        ((records.filter (fun x => x.status == "OK")).map (fun x => x.ont_installed)).sum ∧
     (Huawei.fleet_summary records).ont_online =
        ((records.filter (fun x => x.status == "OK")).map (fun x => x.ont_online)).sum ∧
     ZTE.fleet_summary records = Huawei.fleet_summary records) ∧
    (r.status ≠ "OK" →
      Huawei.fleet_summary (records ++ [r]) =
        { Huawei.fleet_summary records with
            total := (Huawei.fleet_summary records).total + 1,
            failed := (Huawei.fleet_summary records).failed + 1 }) ∧
    (r.status = "OK" →
      Huawei.fleet_summary (records ++ [r]) =
        { total := (Huawei.fleet_summary records).total + 1,
          success := (Huawei.fleet_summary records).success + 1,
          failed := (Huawei.fleet_summary records).failed,
          board_installed :=
            (Huawei.fleet_summary records).board_installed + r.board_installed,
          board_used := (Huawei.fleet_summary records).board_used + r.board_used,
          pon_installed :=
            (Huawei.fleet_summary records).pon_installed + r.pon_port_installed,
          pon_used := (Huawei.fleet_summary records).pon_used + r.pon_port_used,
          ont_installed := (Huawei.fleet_summary records).ont_installed + r.ont_installed,
          ont_online := (Huawei.fleet_summary records).ont_online + r.ont_online }) := by
  have hs : (records.filter (fun x => x.status == "OK")).length ≤ records.length :=
    List.length_filter_le _ _
  refine ⟨⟨rfl, rfl, rfl, rfl, rfl, rfl, rfl, rfl, rfl⟩, fun hne => ?_, fun hok => ?_⟩
  · have hb : (r.status == "OK") = false := by
      cases hbb : r.status == "OK"
      · rfl
      · exact absurd (by simpa using hbb) hne
    unfold Huawei.fleet_summary
    dsimp only
    simp only [List.filter_append, List.filter_cons, hb, Bool.false_eq_true, if_false,
      List.filter_nil, List.append_nil, List.length_append, List.map_append,
      List.sum_append, List.length_cons, List.length_nil, List.map_nil, List.sum_nil,
      Nat.add_zero]
    rw [FleetSummary.mk.injEq]
    refine ⟨rfl, rfl, by omega, rfl, rfl, rfl, rfl, rfl, rfl⟩
  · have hb : (r.status == "OK") = true := by simpa using hok
    unfold Huawei.fleet_summary
    dsimp only
    simp only [List.filter_append, List.filter_cons, hb, if_true, List.filter_nil,
      List.length_append, List.map_append, List.sum_append, List.length_cons,
      List.length_nil, List.map_cons, List.map_nil, List.sum_cons, List.sum_nil,
      Nat.add_zero]
    rw [FleetSummary.mk.injEq]
    refine ⟨rfl, rfl, by omega, rfl, rfl, rfl, rfl, rfl, rfl⟩

/-- C7 witness: appending the failed record leaves every metric total of
the one-record fleet unchanged. -/
theorem C7_witness :
    recErrC7.status ≠ "OK" ∧
    Huawei.fleet_summary [recOkC7, recErrC7] =
      { Huawei.fleet_summary [recOkC7] with
          total := (Huawei.fleet_summary [recOkC7]).total + 1,
          failed := (Huawei.fleet_summary [recOkC7]).failed + 1 } :=
  ⟨by decide, (C7_fleet_summary_ok_only [recOkC7] recErrC7).2.1 (by decide)⟩

/-- C8: with a fixed transport the fleet run is a pure function of the
address multiset: two completion orders that are permutations of one
another yield the same sorted record sequence and the same summary
totals. -/
theorem C8_aggregation_deterministic (transport : Transport) (o1 o2 : List String)
    (h : o1.Perm o2) :
    Huawei.run_fleet transport o1 = Huawei.run_fleet transport o2 := by
  unfold Huawei.run_fleet
  dsimp only
  have hkey : ∀ s, (Huawei.collect_olt_data transport s).ip = s := collect_ip transport
  have hperm := h.map (fun ip => Huawei.collect_olt_data transport ip)
  have hsorted :
      List.insertionSort (fun a b : DeviceRecord => a.ip ≤ b.ip)
          (o1.map (fun ip => Huawei.collect_olt_data transport ip)) =
        List.insertionSort (fun a b : DeviceRecord => a.ip ≤ b.ip)
          (o2.map (fun ip => Huawei.collect_olt_data transport ip)) := by
    rw [insertionSort_map_ip _ hkey, insertionSort_map_ip _ hkey]
    exact congrArg (List.map _)
      (List.eq_of_perm_of_sorted
        (((List.perm_insertionSort _ o1).trans h).trans
          (List.perm_insertionSort _ o2).symm)
        (List.sorted_insertionSort _ o1) (List.sorted_insertionSort _ o2))
  rw [hsorted, fleet_summary_perm hperm]

/-- C8 witness: the two completion orders of the two-address fleet yield
identical output. -/
theorem C8_witness :
    (["10.0.0.2", "10.0.0.1"] : List String).Perm ["10.0.0.1", "10.0.0.2"] ∧
    Huawei.run_fleet transC8 ["10.0.0.2", "10.0.0.1"] =
      Huawei.run_fleet transC8 ["10.0.0.1", "10.0.0.2"] :=
  ⟨by decide, C8_aggregation_deterministic transC8 _ _ (by decide)⟩
